import Mathlib

/-!
Verification of the libantplus ANT / ANT+ library.

Shallow embedding of the Python sources under `src/libantplus/`: byte strings
are `List Nat` with every element `< 256`, Python exceptions are `Except`
errors, and the mutable objects are explicit state records.  Python `float`
time arithmetic is modelled with exact rationals (`ℚ`); the modelled claims do
not depend on rounding of these fields.
-/

namespace AntSpec

/-! ## Frame codec (`src/libantplus/message.py`) -/

/-- `SYNC = 0xA4` from message.py. -/
def SYNC : Nat := 0xA4

/-- The message id enum `Id` from message.py. -/
inductive Id where
  | RF_EVENT
  | ANTversion
  | BroadcastData
  | AcknowledgedData
  | ChannelResponse
  | Capabilities
  | UnassignChannel
  | AssignChannel
  | ChannelPeriod
  | ChannelSearchTimeout
  | ChannelRfFrequency
  | SetNetworkKey
  | ResetSystem
  | OpenChannel
  | CloseChannel
  | RequestMessage
  | ChannelID
  | ChannelStatus
  | ChannelTransmitPower
  | StartUp
  | BurstData
deriving DecidableEq, Repr

/-- Numeric value of each member of `Id` (message.py lines 16-44). -/
def Id.value : Id → Nat
  | .RF_EVENT => 0x01
  | .ANTversion => 0x3E
  | .BroadcastData => 0x4E
  | .AcknowledgedData => 0x4F
  | .ChannelResponse => 0x40
  | .Capabilities => 0x54
  | .UnassignChannel => 0x41
  | .AssignChannel => 0x42
  | .ChannelPeriod => 0x43
  | .ChannelSearchTimeout => 0x44
  | .ChannelRfFrequency => 0x45
  | .SetNetworkKey => 0x46
  | .ResetSystem => 0x4A
  | .OpenChannel => 0x4B
  | .CloseChannel => 0x4C
  | .RequestMessage => 0x4D
  | .ChannelID => 0x51
  | .ChannelStatus => 0x52
  | .ChannelTransmitPower => 0x60
  | .StartUp => 0x6F
  | .BurstData => 0x50

/-- `Id(n)`: look a numeric value up in the enum; `none` models the
`ValueError` Python raises for a value that is no member. -/
def Id.fromValue? : Nat → Option Id
  | 0x01 => some .RF_EVENT
  | 0x3E => some .ANTversion
  | 0x4E => some .BroadcastData
  | 0x4F => some .AcknowledgedData
  | 0x40 => some .ChannelResponse
  | 0x54 => some .Capabilities
  | 0x41 => some .UnassignChannel
  | 0x42 => some .AssignChannel
  | 0x43 => some .ChannelPeriod
  | 0x44 => some .ChannelSearchTimeout
  | 0x45 => some .ChannelRfFrequency
  | 0x46 => some .SetNetworkKey
  | 0x4A => some .ResetSystem
  | 0x4B => some .OpenChannel
  | 0x4C => some .CloseChannel
  | 0x4D => some .RequestMessage
  | 0x51 => some .ChannelID
  | 0x52 => some .ChannelStatus
  | 0x60 => some .ChannelTransmitPower
  | 0x6F => some .StartUp
  | 0x50 => some .BurstData
  | _ => none

/-- XOR of all bytes of a list (helper for stating checksum facts). -/
def xorBytes (l : List Nat) : Nat := l.foldl (fun a b => a ^^^ b) 0

/-- `calc_checksum` (message.py lines 178-188): XOR of bytes
`0 .. message[1] + 3 - 1` of the message. -/
def calc_checksum (message : List Nat) : Nat :=
  (List.range (message.getD 1 0 + 3)).foldl (fun x i => x ^^^ message.getD i 0) 0

/-- `AntMessage.compose` (message.py lines 65-78): `sync | len | id | info`
followed by the checksum byte.  `struct.pack` would raise for
`len(info) > 255` or a byte `≥ 256`; the round-trip theorem assumes both
bounds. -/
def compose (message_id : Id) (info : List Nat) : List Nat :=
  let data := SYNC :: info.length :: message_id.value :: info
  data ++ [calc_checksum data]

/-- The exceptions `AntMessage.decompose` can raise: `InvalidMessageError`
from the assertion block, `ValueError` from `Id(message[2])`, and the
`IndexError` of `message[0]` on an empty input (not converted by the
`except AssertionError` clause). -/
inductive DecomposeError where
  | invalidMessage
  | invalidId
  | indexError
deriving DecidableEq, Repr

/-- The tuple returned by `AntMessage.decompose` (message.py lines 124-134).
`channel` and `page_number` are `-1` when the info is too short, as in the
source. -/
structure Decomposed where
  synch : Nat
  length : Nat
  messageID : Option Id
  info : List Nat
  checksum : Nat
  channel : Int
  page_number : Int
  burst_sequence_number : Option Nat
deriving DecidableEq, Repr

/-- Python's bitwise `c & m` for an `int` `c` that the source only ever has in
`[-1, 255]` and a mask `m < 256`: reduce `c` modulo 256 (two's complement on
the low byte) and mask. -/
def pyAnd (c : Int) (m : Nat) : Nat := (c % 256).toNat &&& m

/-- `AntMessage.decompose` (message.py lines 80-134). -/
def decompose (message : List Nat) : Except DecomposeError Decomposed :=
  match message with
  | [] => .error .indexError
  | b0 :: _ =>
    if b0 ≠ SYNC then .error .invalidMessage
    else if message.length ≤ 1 then .error .invalidMessage
    else
      let length := message.getD 1 0
      if message.length ≠ length + 4 then .error .invalidMessage
      else
        match Id.fromValue? (message.getD 2 0) with
        | none => .error .invalidId
        | some mid =>
          let info := if length ≠ 0 then (message.drop 3).take length else []
          let checksum := message.getD (3 + length) 0
          let channel0 : Int := if 1 ≤ length then (message.getD 3 0 : Int) else -1
          let page : Int := if 2 ≤ length then (message.getD 4 0 : Int) else -1
          if mid = .BurstData then
            .ok ⟨b0, length, some mid, info, checksum,
                 (pyAnd channel0 0b00011111 : Nat), page,
                 some (pyAnd channel0 0b11100000 >>> 5)⟩
          else
            .ok ⟨b0, length, some mid, info, checksum, channel0, page, none⟩

/-- `Id.fromValue?` inverts `Id.value`. -/
theorem Id.fromValue_value (i : Id) : Id.fromValue? i.value = some i := by
  cases i <;> rfl

theorem range_foldl_xor_getD (l : List Nat) :
    ∀ a : Nat, (List.range l.length).foldl (fun x i => x ^^^ l.getD i 0) a =
      l.foldl (fun x b => x ^^^ b) a := by
  induction l using List.reverseRecOn with
  | nil => intro a; rfl
  | append_singleton l b ih =>
    intro a
    rw [List.length_append, List.length_singleton, List.range_succ,
      List.foldl_append, List.foldl_append]
    have hcong : (List.range l.length).foldl
        (fun x i => x ^^^ (l ++ [b]).getD i 0) a =
        (List.range l.length).foldl (fun x i => x ^^^ l.getD i 0) a := by
      apply List.foldl_ext
      intro x i hi
      rw [List.getD_append]
      exact List.mem_range.mp hi
    rw [hcong, ih]
    simp [List.getD_append_right, List.getD]

/-- On a message whose length byte is exactly three less than its list length,
`calc_checksum` is the XOR of all bytes. -/
theorem calc_checksum_eq_xorBytes (l : List Nat)
    (h : l.getD 1 0 + 3 = l.length) : calc_checksum l = xorBytes l := by
  unfold calc_checksum xorBytes
  rw [h, range_foldl_xor_getD]

theorem compose_length (message_id : Id) (info : List Nat) :
    (compose message_id info).length = info.length + 4 := by
  simp [compose]

/-- Decomposing a composed frame recovers the id and the payload. -/
theorem decompose_compose_proj (message_id : Id) (info : List Nat) :
    (decompose (compose message_id info)).map (fun d => (d.messageID, d.info)) =
      .ok (some message_id, info) := by
  have hdrop : (compose message_id info).drop 3 = info ++ [calc_checksum
      (SYNC :: info.length :: message_id.value :: info)] := by
    simp [compose]
  unfold decompose
  simp only [compose]
  rw [show (SYNC :: info.length :: message_id.value :: info) ++
      [calc_checksum (SYNC :: info.length :: message_id.value :: info)] =
      SYNC :: info.length :: message_id.value ::
        (info ++ [calc_checksum (SYNC :: info.length :: message_id.value :: info)])
    from by simp]
  simp only [List.getD_cons_succ, List.getD_cons_zero, List.length_cons,
    List.length_append, List.length_singleton, List.length_nil]
  rw [if_neg (by simp), if_neg (by omega), if_neg (by omega), Id.fromValue_value]
  simp only []
  have htake : (info ++ [calc_checksum
      (SYNC :: info.length :: message_id.value :: info)]).take info.length = info :=
    List.take_left' rfl
  split <;>
  · simp only [Except.map, List.drop_succ_cons, List.drop_zero, Except.ok.injEq,
      Prod.mk.injEq, true_and]
    split
    · exact htake
    · next hzero =>
      have : info = [] := List.eq_nil_of_length_eq_zero (by omega)
      simp [this]

/-- The composed frame is its body followed by the XOR of the body. -/
theorem compose_eq_body_append_xor (message_id : Id) (info : List Nat) :
    compose message_id info =
      (SYNC :: info.length :: message_id.value :: info) ++
        [xorBytes (SYNC :: info.length :: message_id.value :: info)] := by
  show (SYNC :: info.length :: message_id.value :: info) ++
      [calc_checksum (SYNC :: info.length :: message_id.value :: info)] = _
  rw [calc_checksum_eq_xorBytes _ (by
    simp only [List.getD_cons_succ, List.getD_cons_zero, List.length_cons])]

/-- C1: for every message id and every payload with `|payload| ≤ 255`
(byte-valued entries), decomposing the frame produced by
`compose(id, payload)` returns the same id and the same payload bytes, and
the trailing checksum byte of the composed frame equals the XOR of all
preceding bytes. -/
theorem C1_frame_round_trip (message_id : Id) (payload : List Nat)
    (hlen : payload.length ≤ 255) (hbytes : ∀ b ∈ payload, b < 256) :
    (decompose (compose message_id payload)).map (fun d => (d.messageID, d.info)) =
      .ok (some message_id, payload) ∧
    compose message_id payload =
      (compose message_id payload).dropLast ++
        [xorBytes ((compose message_id payload).dropLast)] := by
  refine ⟨decompose_compose_proj message_id payload, ?_⟩
  have h := compose_eq_body_append_xor message_id payload
  have hdl : (compose message_id payload).dropLast =
      SYNC :: payload.length :: message_id.value :: payload := by
    rw [h]
    exact List.dropLast_concat
  rw [hdl]
  exact h

/-- Witness for C1 at a concrete frame. -/
theorem C1_frame_round_trip_witness :
    ([1, 2, 3] : List Nat).length ≤ 255 ∧
    (decompose (compose .BroadcastData [1, 2, 3])).map (fun d => (d.messageID, d.info)) =
      .ok (some .BroadcastData, [1, 2, 3]) :=
  ⟨by decide, (C1_frame_round_trip .BroadcastData [1, 2, 3] (by decide) (by decide)).1⟩

/-! ## Byte-deque frame extraction (`Dongle.read_message_from_deque`,
src/libantplus/dongle.py lines 423-444) -/

/-- The pushback loop of `read_message_from_deque`: `appendleft` each item of
the list in turn (the source iterates `reversed(message)`). -/
def appendleft_each (items : List Nat) (dq : List Nat) : List Nat :=
  items.foldl (fun d b => b :: d) dq

/-- `appendleft` of a reversed list restores the list, in its original order,
at the left end of the deque. -/
theorem appendleft_each_reverse (l : List Nat) (dq : List Nat) :
    appendleft_each l.reverse dq = l ++ dq := by
  induction l generalizing dq with
  | nil => rfl
  | cons a t ih =>
    simp only [appendleft_each, List.reverse_cons, List.foldl_append, List.foldl_cons,
      List.foldl_nil, List.cons_append]
    exact congrArg (List.cons a) (ih dq)

/-- `Dongle.read_message_from_deque`: pop bytes until a sync byte, then the
length byte, then `length + 2` further bytes; on underflow push every
consumed frame byte back (via `appendleft` over the reversed message) and
raise `NoMessagesInDeque` (modelled as `none`).  Returns the result and the
deque contents (left end first) after the call.  Bytes popped before a sync
byte was found are discarded. -/
def read_message_from_deque (dq : List Nat) : Option (List Nat) × List Nat :=
  match dq.dropWhile (fun b => b ≠ SYNC) with
  | [] => (none, [])
  | s :: afterSync =>
    match afterSync with
    | [] => (none, appendleft_each [s].reverse [])
    | len :: afterLen =>
      if len + 2 ≤ afterLen.length then
        (some (s :: len :: afterLen.take (len + 2)), afterLen.drop (len + 2))
      else
        (none, appendleft_each (s :: len :: afterLen).reverse [])

theorem dropWhile_to_sync (noise rest : List Nat) (h : ∀ b ∈ noise, b ≠ SYNC) :
    (noise ++ SYNC :: rest).dropWhile (fun b => b ≠ SYNC) = SYNC :: rest := by
  induction noise with
  | nil => simp [List.dropWhile]
  | cons a t ih =>
    simp only [List.cons_append, List.dropWhile_cons]
    rw [if_pos (by simpa using h a (List.mem_cons_self a t))]
    exact ih (fun b hb => h b (List.mem_cons_of_mem a hb))

/-- C2: when a sync byte has been found and the length byte read, but fewer
than `length + 2` further bytes (id, payload, xor) are available, the reader
pushes every consumed frame byte back onto the left of the deque in the
original byte order and signals `NoMessagesInDeque`; the next call resumes
from the same sync byte, so no partial frame is ever consumed. -/
theorem C2_partial_frame_pushback (noise : List Nat) (len : Nat) (tail : List Nat)
    (hnoise : ∀ b ∈ noise, b ≠ SYNC) (hshort : tail.length < len + 2) :
    read_message_from_deque (noise ++ SYNC :: len :: tail) =
      (none, SYNC :: len :: tail) := by
  unfold read_message_from_deque
  rw [dropWhile_to_sync noise (len :: tail) hnoise]
  simp only []
  rw [if_neg (by omega)]
  rw [appendleft_each_reverse (SYNC :: len :: tail) []]
  simp

/-- Witness for C2 on a concrete underflowing deque. -/
theorem C2_partial_frame_pushback_witness :
    (∀ b ∈ ([1, 2] : List Nat), b ≠ SYNC) ∧
    read_message_from_deque ([1, 2] ++ SYNC :: 3 :: [9]) = (none, SYNC :: 3 :: [9]) :=
  ⟨by decide, C2_partial_frame_pushback [1, 2] 3 [9] (by decide) (by decide)⟩

/-! ## Typed send messages (`SpecialMessageSend` subclasses, message.py) -/

/-- `struct.pack` of one `<H` field (little-endian; in-range at every use
site, out-of-range values would raise in Python). -/
def pack_u16 (n : Nat) : List Nat := [n % 256, n / 256 % 256]

/-- `struct.pack` of one `<Q` field (little-endian 64-bit). -/
def pack_u64 (n : Nat) : List Nat :=
  [n % 256, n / 2 ^ 8 % 256, n / 2 ^ 16 % 256, n / 2 ^ 24 % 256,
   n / 2 ^ 32 % 256, n / 2 ^ 40 % 256, n / 2 ^ 48 % 256, n / 2 ^ 56 % 256]

/-- `UnassignChannelMessage(channel=...)`. -/
def UnassignChannelMessage (channel : Nat) : List Nat :=
  compose .UnassignChannel [channel]

/-- `AssignChannelMessage(channel=..., type=..., network=...)`. -/
def AssignChannelMessage (channel chtype network : Nat) : List Nat :=
  compose .AssignChannel [channel, chtype, network]

/-- `SetChannelPeriodMessage(channel=..., period=...)` (`<BH`). -/
def SetChannelPeriodMessage (channel period : Nat) : List Nat :=
  compose .ChannelPeriod (channel :: pack_u16 period)

/-- `SetChannelSearchTimeoutMessage(channel=..., timeout=...)` (`<BH`). -/
def SetChannelSearchTimeoutMessage (channel timeout : Nat) : List Nat :=
  compose .ChannelSearchTimeout (channel :: pack_u16 timeout)

/-- `SetChannelFrequencyMessage(channel=..., frequency=...)`. -/
def SetChannelFrequencyMessage (channel frequency : Nat) : List Nat :=
  compose .ChannelRfFrequency [channel, frequency]

/-- The public ANT+ network key (plus/interface.py line 8; also the default
`key` kwarg of `SetNetworkKeyMessage._parse_args`). -/
def ant_plus_network_key : Nat := 0x45C372BDFB21A5B9

/-- `SetNetworkKeyMessage(network=..., key=...)` (`<BQ`). -/
def SetNetworkKeyMessage (network key : Nat) : List Nat :=
  compose .SetNetworkKey (network :: pack_u64 key)

/-- `SetNetworkKeyMessage()` with no kwargs, as called by
`Dongle._get_network_number` (dongle.py line 129): `_parse_args` falls back
to `network = 0x00` and `key = 0x45C372BDFB21A5B9`. -/
def SetNetworkKeyMessageDefault : List Nat :=
  SetNetworkKeyMessage 0x00 ant_plus_network_key

/-- `OpenChannelMessage(channel=...)`. -/
def OpenChannelMessage (channel : Nat) : List Nat :=
  compose .OpenChannel [channel]

/-- `CloseChannelMessage(channel=...)`. -/
def CloseChannelMessage (channel : Nat) : List Nat :=
  compose .CloseChannel [channel]

/-- `RequestMessage(channel=..., id=...)` (`<BB`, second byte the numeric id
value). -/
def RequestMessage (channel requested_id_value : Nat) : List Nat :=
  compose .RequestMessage [channel, requested_id_value]

/-- `SetChannelIdMessage(channel=..., device_number=..., device_type_id=...,
type=...)` (`<BHBB`). -/
def SetChannelIdMessage (channel device_number device_type_id transmission_type : Nat) :
    List Nat :=
  compose .ChannelID
    (channel :: pack_u16 device_number ++ [device_type_id, transmission_type])

/-- `SetChannelTransmitPowerMessage(channel=..., power=...)`. -/
def SetChannelTransmitPowerMessage (channel power : Nat) : List Nat :=
  compose .ChannelTransmitPower [channel, power]

/-! ## Channel configuration (`Dongle.configure_channel`, dongle.py 143-202) -/

/-- `AntInterface.Status` (interface.py lines 34-39). -/
inductive Status where
  | UNASSIGNED
  | ASSIGNED
  | OPEN
  | CLOSING
  | CLOSED
deriving DecidableEq, Repr

/-- `power_0db = 0x03` (dongle.py line 39). -/
def power_0db : Nat := 0x03

/-- `AntInterface.wait_for_status` (interface.py 186-192): poll `self.status`
against the target until the 10 s deadline; modelled over the finite list of
values the status field takes during the window.  On timeout it returns
`false`; it raises nothing. -/
def wait_for_status (observed : List Status) (target : Status) : Bool :=
  observed.contains target

/-- `AntInterface.wait_for_action` (interface.py 194-200), same shape
(`action` starts as `None`). -/
def wait_for_action (observed : List (Option Id)) (target : Id) : Bool :=
  observed.contains (some target)

/-- The channel-configuration attributes of an `AntInterface` that
`configure_channel` reads. -/
structure InterfaceConfig where
  channel_type : Nat
  transmission_type : Nat
  device_number : Nat
  device_type_id : Nat
  channel_frequency : Nat
  channel_period : Nat
  transmit_power : Nat
  channel_search_timeout : Nat
  master : Bool
deriving DecidableEq, Repr

/-- One step of the `configure_channel` body: a USB write, or a
`wait_for_status` / `wait_for_action` call together with the boolean it
returned. -/
inductive ConfigEvent where
  | write (frame : List Nat)
  | waitStatus (target : Status) (result : Bool)
  | waitAction (target : Id) (result : Bool)
deriving DecidableEq, Repr

/-- `Dongle.configure_channel` (dongle.py 143-202) after channel and network
allocation: the straight-line sequence of writes and waits.  `statusOk` /
`actionOk` give the result of each wait (`false` models the 10 s timeout).
Exactly as in the source — which discards the return values of
`wait_for_status` and `wait_for_action` — the recorded wait results have no
influence on the remaining steps. -/
def configure_channel_events (iface : InterfaceConfig) (channel_number network : Nat)
    (statusOk : Status → Bool) (actionOk : Id → Bool) : List ConfigEvent :=
  [.write (AssignChannelMessage channel_number iface.channel_type network),
   .waitStatus .ASSIGNED (statusOk .ASSIGNED),
   .write (SetChannelIdMessage channel_number iface.device_number
     iface.device_type_id iface.transmission_type),
   .waitAction .ChannelID (actionOk .ChannelID)] ++
  (if iface.channel_frequency ≠ 66 then
    [.write (SetChannelFrequencyMessage channel_number iface.channel_frequency),
     .waitAction .ChannelRfFrequency (actionOk .ChannelRfFrequency)]
   else []) ++
  (if iface.channel_period ≠ 8192 then
    [.write (SetChannelPeriodMessage channel_number iface.channel_period),
     .waitAction .ChannelPeriod (actionOk .ChannelPeriod)]
   else []) ++
  (if iface.transmit_power ≠ power_0db then
    [.write (SetChannelTransmitPowerMessage channel_number iface.transmit_power),
     .waitAction .ChannelTransmitPower (actionOk .ChannelTransmitPower)]
   else []) ++
  (if ¬ iface.master then
    [.write (SetChannelSearchTimeoutMessage channel_number iface.channel_search_timeout),
     .waitAction .ChannelSearchTimeout (actionOk .ChannelSearchTimeout)]
   else []) ++
  [.write (OpenChannelMessage channel_number),
   .waitStatus .OPEN (statusOk .OPEN)]

/-- The frames written to the dongle during a trace. -/
def config_writes (events : List ConfigEvent) : List (List Nat) :=
  events.filterMap (fun e =>
    match e with
    | .write f => some f
    | _ => none)

/-- C3: the claim fails on the code.  `wait_for_status` returns `false` on
timeout (first conjunct at the never-ASSIGNED observation), and
`configure_channel` ignores that result: the frames it writes are the same
for every combination of wait outcomes (second conjunct), and even when all
waits time out it still writes every later configuration message, ending
with `OPEN_CHANNEL` (third conjunct) — the configuration does not fail
fatally and proceeds with a half-configured channel. -/
theorem C3_timeout_not_fatal :
    wait_for_status [Status.UNASSIGNED] Status.ASSIGNED = false ∧
    (∀ iface channel_number network so1 ao1 so2 ao2,
      config_writes (configure_channel_events iface channel_number network so1 ao1) =
        config_writes (configure_channel_events iface channel_number network so2 ao2)) ∧
    (∀ iface channel_number network,
      ConfigEvent.write (OpenChannelMessage channel_number) ∈
        configure_channel_events iface channel_number network
          (fun _ => false) (fun _ => false)) := by
  refine ⟨by decide, ?_, ?_⟩
  · intro iface channel_number network so1 ao1 so2 ao2
    simp only [configure_channel_events, config_writes, List.filterMap_append]
    split_ifs <;> rfl
  · intro iface channel_number network
    simp only [configure_channel_events, List.append_assoc]
    repeat rw [List.mem_append]
    right; right; right; right; right
    simp

/-! ## Network-key slot allocation (`Dongle._get_network_number`,
dongle.py 117-138) -/

/-- Errors `_get_network_number` can raise: `NoMoreNetworks`, and the
`ValueError` raised when `network_flag` was not set within the timeout. -/
inductive NetworkError where
  | noMoreNetworks
  | valueError
deriving DecidableEq, Repr

/-- `Dongle._get_network_number`: given the `networks` table and the
interface's `network_key`, return (frames written, result), where the result
carries the allocated slot and the updated table.  `network_flag` says
whether the dongle acknowledged `SET_NETWORK_KEY` within the timeout.  Note
line 129 of the source: the write is `SetNetworkKeyMessage()` with no
arguments. -/
def get_network_number (networks : List (Option Nat)) (network_key : Option Nat)
    (network_flag : Bool) :
    List (List Nat) × Except NetworkError (Nat × List (Option Nat)) :=
  match network_key with
  | none => ([], .ok (0, networks))
  | some key =>
    if (some key) ∈ networks then
      ([], .ok (networks.findIdx (fun x => x == some key), networks))
    else
      match (networks.drop 1).findIdx? (fun x => x.isNone) with
      | none => ([], .error .noMoreNetworks)
      | some i =>
        ([SetNetworkKeyMessageDefault],
         if network_flag then .ok (i + 1, networks.set (i + 1) (some key))
         else .error .valueError)

/-- C4: the claim fails on the code.  Every frame `_get_network_number` ever
writes is `SetNetworkKeyMessage()` with no arguments — network byte `0` and
the hard-coded public ANT+ key — independent of the interface's key and of
the allocated slot (first conjunct).  Concretely, allocating the default
ANT key `0xC1677A553B21E4E8` to fresh slot 1 writes a frame whose payload
starts with network byte `0` and continues with the bytes of
`0x45C372BDFB21A5B9`, not the allocated slot or the assigned key (second
and third conjuncts). -/
theorem C4_network_key_hardcoded :
    (∀ networks network_key network_flag,
      ((get_network_number networks network_key network_flag).1).all
        (fun m => m == SetNetworkKeyMessageDefault) = true) ∧
    get_network_number [none, none] (some 0xC1677A553B21E4E8) true =
      ([SetNetworkKeyMessage 0 ant_plus_network_key],
       .ok (1, [none, some 0xC1677A553B21E4E8])) ∧
    SetNetworkKeyMessage 0 ant_plus_network_key ≠
      SetNetworkKeyMessage 1 0xC1677A553B21E4E8 := by
  refine ⟨?_, by rfl, by decide⟩
  intro networks network_key network_flag
  unfold get_network_number
  split
  · rfl
  · split
    · rfl
    · split
      · rfl
      · simp [SetNetworkKeyMessageDefault]

/-! ## Interleave counter (`AntPlusInterface.broadcast_message`,
plus/interface.py 40-46) -/

/-- The effect of one `broadcast_message()` call on `interleave`:
increment, then reset to 0 exactly when the new value equals
`interleave_reset`. -/
def interleave_step (interleave_reset i : Nat) : Nat :=
  let i2 := i + 1
  if i2 = interleave_reset then 0 else i2

/-- The `interleave` value after `n` calls of `broadcast_message()`
following `initialize()` (which sets it to 0). -/
def interleave_after (interleave_reset : Nat) : Nat → Nat
  | 0 => 0
  | n + 1 => interleave_step interleave_reset (interleave_after interleave_reset n)

/-- `AntHRM.interleave_reset` (hrm.py line 22). -/
def AntHRM_interleave_reset : Nat := 204

/-- `AntFE.interleave_reset` (fe.py line 32). -/
def AntFE_interleave_reset : Nat := 132

/-- `AntSCS.interleave_reset` (scs.py line 16). -/
def AntSCS_interleave_reset : Nat := 0

/-- `BushidoBrake.interleave_reset` (tacx/bushido.py line 38). -/
def BushidoBrake_interleave_reset : Nat := 32

theorem interleave_after_lt (interleave_reset : Nat) (hpos : 0 < interleave_reset) :
    ∀ n, interleave_after interleave_reset n < interleave_reset := by
  intro n
  induction n with
  | zero => exact hpos
  | succ n ih =>
    show interleave_step interleave_reset (interleave_after interleave_reset n) <
      interleave_reset
    by_cases h : interleave_after interleave_reset n + 1 = interleave_reset <;>
      simp [interleave_step, h] <;> omega

/-- C5 (counterexample): for the SCS master, `interleave_reset = 0`, so the
claimed bound `interleave < interleave_reset` already fails right after
`initialize()` (zero `broadcast_message()` calls). -/
theorem C5_interleave_bound_counterexample :
    ¬ interleave_after AntSCS_interleave_reset 0 < AntSCS_interleave_reset := by
  decide

/-- C5 (amended): the bound `0 ≤ interleave < interleave_reset` holds after
any number of `broadcast_message()` calls for the masters with a positive
reset — HRM (204), FE (132) and the Bushido brake (32) — while for SCS
(`interleave_reset = 0`) the reset comparison never fires and the counter
just counts the calls, unboundedly. -/
theorem C5_interleave_bound_amended :
    (∀ n, interleave_after AntHRM_interleave_reset n < AntHRM_interleave_reset) ∧
    (∀ n, interleave_after AntFE_interleave_reset n < AntFE_interleave_reset) ∧
    (∀ n, interleave_after BushidoBrake_interleave_reset n < BushidoBrake_interleave_reset) ∧
    (∀ n, interleave_after AntSCS_interleave_reset n = n) := by
  refine ⟨interleave_after_lt _ (by decide), interleave_after_lt _ (by decide),
    interleave_after_lt _ (by decide), ?_⟩
  intro n
  induction n with
  | zero => rfl
  | succ n ih =>
    show interleave_step AntSCS_interleave_reset (interleave_after AntSCS_interleave_reset n) = n + 1
    rw [ih]
    unfold interleave_step AntSCS_interleave_reset
    simp

/-! ## The ANT+ HRM interface (plus/hrm.py, plus/interface.py,
interface.py, data/sport.py) -/

/-- `Manufacturer_garmin = 1` (message.py line 48). -/
def Manufacturer_garmin : Nat := 1

/-- `ModelNumber_HRM = 0x33` (hrm.py line 10). -/
def ModelNumber_HRM : Nat := 0x33

/-- `SerialNumber_HRM = 5975` (hrm.py line 11). -/
def SerialNumber_HRM : Nat := 5975

/-- `HWrevision_HRM = 1` (hrm.py line 12). -/
def HWrevision_HRM : Nat := 1

/-- `SWversion_HRM = 1` (hrm.py line 13). -/
def SWversion_HRM : Nat := 1

/-- Python `float` values, modelled as exact (unnormalised) fractions with a
positive denominator; the modelled claims do not depend on binary-float
rounding. -/
structure PyFloat where
  num : Int
  den : Nat
deriving DecidableEq, Repr

/-- Embed an integer quantity. -/
def PyFloat.ofNat (n : Nat) : PyFloat := ⟨n, 1⟩

def PyFloat.add (a b : PyFloat) : PyFloat :=
  ⟨a.num * b.den + b.num * a.den, a.den * b.den⟩

def PyFloat.sub (a b : PyFloat) : PyFloat :=
  ⟨a.num * b.den - b.num * a.den, a.den * b.den⟩

def PyFloat.mul (a b : PyFloat) : PyFloat := ⟨a.num * b.num, a.den * b.den⟩

/-- Division; every use site guards the zero divisor as Python raises
`ZeroDivisionError` there, and the divisors that occur are nonnegative. -/
def PyFloat.div (a b : PyFloat) : PyFloat := ⟨a.num * b.den, a.den * b.num.toNat⟩

/-- `a <= b`, denominators positive. -/
def PyFloat.le (a b : PyFloat) : Bool := a.num * b.den ≤ b.num * a.den

/-- `a == 0`. -/
def PyFloat.isZero (a : PyFloat) : Bool := a.num == 0

/-- Python `int(...)`, for the nonnegative values the HRM code feeds it
(where truncation and floor agree). -/
def pyInt (q : PyFloat) : Nat := (q.num.ediv q.den).toNat

/-- The fields of `HeartRateData` (data/sport.py) that `AntHRM` reads and
writes under the lock. -/
structure HeartRateData where
  heart_rate : PyFloat
  heart_rate_event_time : Option PyFloat
  heart_rate_event_count : Option Nat
deriving DecidableEq, Repr

/-- The mutable state of an `AntHRM` object: the `AntInterface` /
`AntPlusInterface` attributes it uses plus its own fields (hrm.py 29-45). -/
structure HRMState where
  channel : Nat
  master : Bool
  paired : Bool
  interleave : Nat
  heart_beat_counter : Nat
  heart_beat_event_time : PyFloat
  heart_beat_time : PyFloat
  page_change_toggle : Nat
  features_supported : Nat
  features_enabled : Nat
  status : Status
  action : Option Id
  manufacturer : Option Nat
  serial_number : Option Nat
  hw_version : Option Nat
  sw_version : Option Nat
  model_number : Option Nat
  device_number : Nat
  device_type_id : Nat
  transmission_type : Nat
  data : HeartRateData
deriving DecidableEq, Repr

/-- The Python exceptions the handling paths can raise. -/
inductive PyExc where
  | noMessagesInDeque
  | unknownMessageID
  | invalidMessage
  | wrongChannel
  | wrongMessageId
  | valueError
  | attributeError
  | indexError
  | zeroDivision
  | unsupportedPage
  | unboundLocal
deriving DecidableEq, Repr

/-- The heart-beat bookkeeping at the top of `AntHRM._broadcast_page`
(hrm.py 74-94): take event time/count from the `Data` record when supplied,
else simulate a beat when `60 / heart_rate` seconds have elapsed
(`ZeroDivisionError` when `heart_rate` is zero there).  `now` is
`time.time()`. -/
def hrm_beat_update (now : PyFloat) (s : HRMState) : Except PyExc HRMState :=
  match s.data.heart_rate_event_time, s.data.heart_rate_event_count with
  | some et, some ec =>
    .ok { s with heart_beat_event_time := et, heart_beat_counter := ec }
  | _, _ =>
    if s.data.heart_rate.isZero then .error .zeroDivision
    else if PyFloat.le ((PyFloat.ofNat 60).div s.data.heart_rate) (now.sub s.heart_beat_time) then
      let et := s.heart_beat_event_time.add ((PyFloat.ofNat 60).div s.data.heart_rate)
      let cnt := s.heart_beat_counter + 1
      .ok { s with
        heart_beat_counter := if cnt ≥ 256 then 0 else cnt,
        heart_beat_event_time := if PyFloat.le (PyFloat.ofNat 64) et then PyFloat.ofNat 0 else et,
        heart_beat_time := now }
    else .ok s

/-- `AntHRM._broadcast_page` (hrm.py 73-141): beat bookkeeping, toggle flip
when `interleave % 4 == 0`, then the page dispatch; `UnsupportedPage` for a
page not in {0, 2, 3, 6}.  Mutations made before a `raise` are kept, as in
Python.  The page bytes follow `HRMPage.message_format` (`<BBBBBHBB`):
`[channel, toggle|page, spec1, spec2, spec3, et_lo, et_hi, count, hr]`. -/
def hrm_broadcast_page (now : PyFloat) (page_number : Nat) (message_id : Id)
    (s : HRMState) : HRMState × Except PyExc (List Nat) :=
  match hrm_beat_update now s with
  | .error e => (s, .error e)
  | .ok s1 =>
    let s2 := if s1.interleave % 4 = 0 then
        { s1 with page_change_toggle := s1.page_change_toggle ^^^ 0x80 }
      else s1
    match (if page_number = 2 then
        some (Manufacturer_garmin, SerialNumber_HRM &&& 0x00FF,
          (SerialNumber_HRM &&& 0xFF00) >>> 8)
      else if page_number = 3 then
        some (HWrevision_HRM, SWversion_HRM, ModelNumber_HRM)
      else if page_number = 6 then
        some (0xFF, s2.features_supported, s2.features_enabled)
      else if page_number = 0 then some (0xFF, 0xFF, 0xFF)
      else none) with
    | none => (s2, .error .unsupportedPage)
    | some (spec1, spec2, spec3) =>
      let page : List Nat :=
        s2.channel :: (s2.page_change_toggle ||| page_number) ::
          spec1 :: spec2 :: spec3 ::
          pack_u16 (pyInt ((PyFloat.ofNat 1024).mul s2.heart_beat_event_time)) ++
          [s2.heart_beat_counter, pyInt s2.data.heart_rate]
      (s2, .ok (compose message_id page))

/-- `AntHRM._broadcast_message` (hrm.py 47-71) followed by the interleave
increment-and-reset of `AntPlusInterface.broadcast_message`
(plus/interface.py 40-46). -/
def hrm_broadcast_message (now : PyFloat) (s : HRMState) :
    HRMState × Except PyExc (List Nat) :=
  let page : Nat :=
    if s.interleave ∈ ([0, 1, 2, 3] : List Nat) then 2
    else if s.interleave ∈ ([68, 69, 70, 71] : List Nat) then 3
    else if s.interleave ∈ ([136, 137, 138, 139] : List Nat) then 6
    else 0
  match hrm_broadcast_page now page .BroadcastData s with
  | (s2, .error e) => (s2, .error e)
  | (s2, .ok m) =>
    let i2 := s2.interleave + 1
    ({ s2 with interleave := if i2 = AntHRM_interleave_reset then 0 else i2 }, .ok m)

/-- Little-endian 16-bit read (`<H`). -/
def le16 (lo hi : Nat) : Nat := lo + 256 * hi

/-- `Page70.unpage_to_dict` (plus/page.py 105-120) on the 9 info bytes of a
data frame (format `<BBHBBBBB`). -/
structure Page70Dict where
  channel : Nat
  page_number : Nat
  slave_serial_number : Nat
  descriptor_1 : Nat
  descriptor_2 : Nat
  requested_response : Nat
  number_of_responses : Nat
  response_with_acknowledged : Bool
  requested_page : Nat
  command_type : Nat
deriving DecidableEq, Repr

/-- `Page70.unpage_to_dict`: `number_of_responses = tr & 0x7F`,
`response_with_acknowledged = bool((tr & 0x80) >> 7)`. -/
def Page70_unpage_to_dict (info : List Nat) : Page70Dict :=
  { channel := info.getD 0 0
    page_number := info.getD 1 0
    slave_serial_number := le16 (info.getD 2 0) (info.getD 3 0)
    descriptor_1 := info.getD 4 0
    descriptor_2 := info.getD 5 0
    requested_response := info.getD 6 0
    number_of_responses := info.getD 6 0 &&& 0x7F
    response_with_acknowledged := (info.getD 6 0 &&& 0x80) >>> 7 ≠ 0
    requested_page := info.getD 7 0
    command_type := info.getD 8 0 }

/-- What `handle_received_message` returns: `None`, one frame, or a list of
frames. -/
inductive HandleResult where
  | noResponse
  | one (frame : List Nat)
  | many (frames : List (List Nat))
deriving DecidableEq, Repr

/-- `AntHRM._handle_broadcast_data` (hrm.py 143-165): always writes
`data.heart_rate` from the last unpacked field, then records per-page info.
The unpacked `<BBBBBHBB` tuple indices of the source translate to byte
positions 1, 2, 3 and 8. -/
def hrm_handle_broadcast_data (data_page_number : Int) (info : List Nat)
    (s : HRMState) : HRMState :=
  let dpn := pyAnd data_page_number 0x7F
  let s1 := { s with data := { s.data with heart_rate := PyFloat.ofNat (info.getD 8 0) } }
  if dpn = 0 then s1
  else if dpn = 2 then
    { s1 with
      manufacturer := some (info.getD 1 0),
      serial_number := some (info.getD 2 0 * 0xFF + info.getD 3 0) }
  else if dpn = 3 then
    { s1 with
      hw_version := some (info.getD 1 0),
      sw_version := some (info.getD 2 0), model_number := some (info.getD 3 0) }
  else if dpn = 6 then
    { s1 with features_supported := info.getD 2 0, features_enabled := info.getD 3 0 }
  else s1

/-- `SetChannelIdMessage.to_dict` + `AntInterface._handle_channel_id_message`
(interface.py 121-128): on a matching channel set `paired` and record the
counterparty identity. -/
def hrm_handle_channel_id (info : List Nat) (s : HRMState) : HRMState :=
  if info.getD 0 0 = s.channel then
    { s with
      paired := true,
      device_number := le16 (info.getD 1 0) (info.getD 2 0),
      device_type_id := info.getD 3 0,
      transmission_type := info.getD 4 0 }
  else s

/-- The member values of `ChannelResponseMessage.Code` (message.py 440-475);
`Code(info[2])` raises `ValueError` outside this set. -/
def channel_response_code_valid (n : Nat) : Bool :=
  n ∈ [0, 1, 2, 3, 4, 5, 6, 7, 8, 9, 10, 17, 21, 22, 24, 25, 31, 32, 33, 39, 40,
       41, 48, 49, 51, 52, 53, 56, 57, 64, 65, 112, 174]

/-- `AntInterface._handle_channel_response_message` (interface.py 130-169)
specialised to `AntHRM` (whose `_handle_rx_fail` is the base no-op).  Codes:
3 = EVENT_TX, 7 = EVENT_CHANNEL_CLOSED, 0 = RESPONSE_NO_ERROR. -/
def hrm_handle_channel_response (now : PyFloat) (info : List Nat) (s : HRMState) :
    HRMState × Except PyExc HandleResult :=
  match Id.fromValue? (info.getD 1 0) with
  | none => (s, .error .valueError)
  | some rid =>
    if ¬ channel_response_code_valid (info.getD 2 0) then (s, .error .valueError)
    else
      let code := info.getD 2 0
      if code = 3 ∧ s.master then
        match hrm_broadcast_message now s with
        | (s2, .error e) => (s2, .error e)
        | (s2, .ok m) => (s2, .ok (.one m))
      else if code = 7 then ({ s with status := .CLOSED }, .ok .noResponse)
      else if code = 0 then
        let status := if rid = .AssignChannel then Status.ASSIGNED
          else if rid = .OpenChannel then Status.OPEN
          else if rid = .CloseChannel then Status.CLOSING
          else if rid = .UnassignChannel then Status.UNASSIGNED
          else s.status
        ({ s with status := status, action := some rid }, .ok .noResponse)
      else (s, .ok .noResponse)

/-- `AntInterface._handle_received_message` (interface.py 97-119)
specialised to `AntHRM`: dispatch on the message id, with the pairing gate
in front of the data pages. -/
def hrm_base_handle (now : PyFloat) (message_id : Id) (page_number : Int)
    (info : List Nat) (s : HRMState) : HRMState × Except PyExc HandleResult :=
  if message_id = .ChannelID then
    (hrm_handle_channel_id info s, .ok .noResponse)
  else if message_id = .ChannelResponse then
    hrm_handle_channel_response now info s
  else if message_id = .BroadcastData then
    if ¬ s.paired then (s, .ok (.one (RequestMessage s.channel Id.ChannelID.value)))
    else (hrm_handle_broadcast_data page_number info s, .ok .noResponse)
  else if message_id = .AcknowledgedData then
    if ¬ s.paired then (s, .ok (.one (RequestMessage s.channel Id.ChannelID.value)))
    else (hrm_handle_broadcast_data page_number info s, .ok .noResponse)
  else if message_id = .BurstData then (s, .ok .noResponse)
  else (s, .error .unknownMessageID)

/-- The reply loop of the page-70 branch
(`for _ in range(0, number_of_responses)`, plus/interface.py 62-77). -/
def hrm_page70_loop (now : PyFloat) (message_id : Id) (requested_page : Nat) :
    Nat → HRMState → HRMState × Except PyExc (List (List Nat))
  | 0, s => (s, .ok [])
  | n + 1, s =>
    match hrm_broadcast_page now requested_page message_id s with
    | (s2, .error e) => (s2, .error e)
    | (s2, .ok m) =>
      match hrm_page70_loop now message_id requested_page n s2 with
      | (s3, .error e) => (s3, .error e)
      | (s3, .ok ms) => (s3, .ok (m :: ms))

/-- `AntPlusInterface._handle_received_message` (plus/interface.py 54-80)
specialised to `AntHRM`: an `AcknowledgedData` frame with page 70 is
answered with `number_of_responses` copies of the requested page —
`AcknowledgedData` when bit 7 of the transmission-response byte is set,
`BroadcastData` otherwise — before any pairing check; only on
`UnsupportedPage` does handling fall through to the base handler. -/
def hrm_plus_handle (now : PyFloat) (message_id : Id) (page_number : Int)
    (info : List Nat) (s : HRMState) : HRMState × Except PyExc HandleResult :=
  if message_id = .AcknowledgedData ∧ page_number = 70 then
    let d := Page70_unpage_to_dict info
    let mid := if d.response_with_acknowledged then Id.AcknowledgedData
      else Id.BroadcastData
    match hrm_page70_loop now mid d.requested_page d.number_of_responses s with
    | (s2, .ok frames) => (s2, .ok (.many frames))
    | (s2, .error e) =>
      if e = .unsupportedPage then hrm_base_handle now message_id page_number info s2
      else (s2, .error e)
  else hrm_base_handle now message_id page_number info s

/-- `AntInterface.handle_received_message` (interface.py 91-95) specialised
to `AntHRM`: the `WrongChannel` gate, then dispatch. -/
def hrm_handle_received_message (now : PyFloat) (message_id : Id) (md_channel : Int)
    (page_number : Int) (info : List Nat) (s : HRMState) :
    HRMState × Except PyExc HandleResult :=
  if md_channel ≠ (s.channel : Int) then (s, .error .wrongChannel)
  else hrm_plus_handle now message_id page_number info s

/-- A freshly initialised unpaired HRM slave on channel 1 whose `Data`
record reports `heart_rate = 100` (other fields default `None`). -/
def hrm_slave_state : HRMState :=
  { channel := 1, master := false, paired := false, interleave := 0,
    heart_beat_counter := 0, heart_beat_event_time := PyFloat.ofNat 0,
    heart_beat_time := PyFloat.ofNat 0,
    page_change_toggle := 0, features_supported := 0, features_enabled := 0,
    status := .OPEN, action := none, manufacturer := none, serial_number := none,
    hw_version := none, sw_version := none, model_number := none,
    device_number := 0, device_type_id := 120, transmission_type := 0,
    data := ⟨PyFloat.ofNat 100, none, none⟩ }

/-- A freshly initialised HRM master on an open channel 1 with
`heart_rate = 100`. -/
def hrm_master_state : HRMState :=
  { hrm_slave_state with master := true, status := .OPEN }

/-- Checks a frame for a given wire id value and page number (low 7 bits of
the page byte at offset 4: sync, len, id, channel, page). -/
def frame_is_data_of_page (message_id_value page : Nat) (m : List Nat) : Bool :=
  m.getD 2 0 == message_id_value && (m.getD 4 0 &&& 0x7F) == page

/-- Checks that a handler result is exactly `n` frames with the given wire
id and page number. -/
def result_is_n_frames_of_page (r : Except PyExc HandleResult)
    (message_id_value n page : Nat) : Bool :=
  match r with
  | .ok (.many ms) => ms.length == n && ms.all (frame_is_data_of_page message_id_value page)
  | _ => false

instance exceptDecidableEq {α β : Type} [DecidableEq α] [DecidableEq β] :
    DecidableEq (Except α β) :=
  fun a b =>
    match a, b with
    | .ok x, .ok y => if h : x = y then .isTrue (by rw [h]) else .isFalse (by simp [h])
    | .error x, .error y =>
      if h : x = y then .isTrue (by rw [h]) else .isFalse (by simp [h])
    | .ok _, .error _ => .isFalse (by simp)
    | .error _, .ok _ => .isFalse (by simp)

theorem hrm_beat_update_ok (now : PyFloat) (s : HRMState)
    (hhr : s.data.heart_rate.isZero = false) :
    ∃ s1, hrm_beat_update now s = .ok s1 ∧ s1.data = s.data ∧
      s1.page_change_toggle = s.page_change_toggle ∧
      s1.interleave = s.interleave ∧ s1.channel = s.channel := by
  unfold hrm_beat_update
  rcases het : s.data.heart_rate_event_time with _ | et <;>
    rcases hec : s.data.heart_rate_event_count with _ | ec <;>
    simp [hhr] <;> split <;> simp

theorem frame_is_data_of_page_compose (message_id : Id) (p pb ch : Nat)
    (rest : List Nat) (hpb : ((pb &&& 0x7F) == p) = true) :
    frame_is_data_of_page message_id.value p
      (compose message_id (ch :: pb :: rest)) = true := by
  simp only [compose, frame_is_data_of_page, List.cons_append, List.getD_cons_succ,
    List.getD_cons_zero, Bool.and_eq_true, beq_self_eq_true, true_and]
  exact hpb

theorem hrm_broadcast_page_spec (now : PyFloat) (page_number : Nat) (message_id : Id)
    (s : HRMState)
    (hp : page_number = 0 ∨ page_number = 2 ∨ page_number = 3 ∨ page_number = 6)
    (htog : s.page_change_toggle = 0 ∨ s.page_change_toggle = 0x80)
    (hhr : s.data.heart_rate.isZero = false) :
    ∃ s2 m, hrm_broadcast_page now page_number message_id s = (s2, .ok m) ∧
      s2.data = s.data ∧
      (s2.page_change_toggle = 0 ∨ s2.page_change_toggle = 0x80) ∧
      frame_is_data_of_page message_id.value page_number m = true := by
  obtain ⟨s1, heq, hdat, htg1, hint, hch⟩ := hrm_beat_update_ok now s hhr
  have htog1 : s1.page_change_toggle = 0 ∨ s1.page_change_toggle = 0x80 := by
    rw [htg1]; exact htog
  have htog2 : ∀ t : Nat, t = 0 ∨ t = 0x80 → (t ^^^ 0x80 = 0 ∨ t ^^^ 0x80 = 0x80) := by
    rintro t (rfl | rfl) <;> decide
  have hpage : ∀ t p : Nat, (t = 0 ∨ t = 0x80) → (p = 0 ∨ p = 2 ∨ p = 3 ∨ p = 6) →
      (((t ||| p) &&& 0x7F) == p) = true := by
    rintro t p (rfl | rfl) (rfl | rfl | rfl | rfl) <;> decide
  have hpageX : ∀ t p : Nat, (t = 0 ∨ t = 0x80) → (p = 0 ∨ p = 2 ∨ p = 3 ∨ p = 6) →
      ((((t ^^^ 0x80) ||| p) &&& 0x7F) == p) = true := by
    rintro t p (rfl | rfl) (rfl | rfl | rfl | rfl) <;> decide
  unfold hrm_broadcast_page
  rw [heq]
  rcases hp with rfl | rfl | rfl | rfl <;>
    refine ⟨_, _, rfl, ?_, ?_, ?_⟩ <;>
    first
      | (split <;> (simp [hdat]; done))
      | (split <;>
         first
           | exact htog2 _ htog1
           | exact htog1)
      | (split <;>
         exact frame_is_data_of_page_compose _ _ _ _ _ (by
           rcases htog1 with ht | ht <;> rw [ht] <;>
             first
               | exact hpageX _ _ (Or.inl rfl) (by decide)
               | exact hpageX _ _ (Or.inr rfl) (by decide)))

theorem hrm_page70_loop_spec (now : PyFloat) (message_id : Id) (requested_page : Nat)
    (hp : requested_page = 0 ∨ requested_page = 2 ∨ requested_page = 3 ∨
      requested_page = 6) :
    ∀ (n : Nat) (s : HRMState),
      (s.page_change_toggle = 0 ∨ s.page_change_toggle = 0x80) →
      s.data.heart_rate.isZero = false →
      ∃ s3 ms, hrm_page70_loop now message_id requested_page n s = (s3, .ok ms) ∧
        ms.length = n ∧
        ms.all (frame_is_data_of_page message_id.value requested_page) = true := by
  intro n
  induction n with
  | zero => intro s _ _; exact ⟨s, [], rfl, rfl, rfl⟩
  | succ n ih =>
    intro s htog hhr
    obtain ⟨s2, m, heq, hdat, htog2, hframe⟩ :=
      hrm_broadcast_page_spec now requested_page message_id s hp htog hhr
    obtain ⟨s3, ms, heq2, hlen, hall⟩ := ih s2 htog2 (by rw [hdat]; exact hhr)
    refine ⟨s3, m :: ms, ?_, by simp [hlen], by simp [hframe, hall]⟩
    unfold hrm_page70_loop
    rw [heq]
    simp only []
    rw [heq2]

/-- C6 (counterexample): an HRM receiving the claimed S6 page-70 request —
`transmission_response = 0x82`, requested page 80 — does not return two
`AcknowledgedData` frames with page 80: page 80 is not implemented by
`AntHRM._broadcast_page` (only 0, 2, 3, 6 are), so `UnsupportedPage` is
raised, logged, and handling falls through to the base handler, which (for
this unpaired slave) returns a single `RequestMessage(ChannelID)`. -/
theorem C6_page70_reply_counterexample :
    result_is_n_frames_of_page
      ((hrm_plus_handle (PyFloat.ofNat 1000) .AcknowledgedData 70
        [1, 70, 0, 0, 0, 0, 0x82, 80, 1] hrm_slave_state).2)
      Id.AcknowledgedData.value 2 80 = false ∧
    (hrm_plus_handle (PyFloat.ofNat 1000) .AcknowledgedData 70
        [1, 70, 0, 0, 0, 0, 0x82, 80, 1] hrm_slave_state).2 =
      .ok (.one (RequestMessage 1 Id.ChannelID.value)) := by
  exact ⟨by decide, by decide⟩

/-- C6 (amended): for every received `ACKNOWLEDGED_DATA` frame carrying page
70 whose requested page IS implemented by the HRM profile (0, 2, 3 or 6),
the handler returns exactly `N = transmission_response & 0x7F` frames of the
requested page — `AcknowledgedData` frames when bit 7 of the
transmission-response byte is set, `BroadcastData` frames when it is clear.
For an unimplemented requested page (such as 80) `UnsupportedPage` is logged
and no page-70 reply is produced. -/
theorem C6_page70_reply_amended (now : PyFloat) (info : List Nat) (s : HRMState)
    (htog : s.page_change_toggle = 0 ∨ s.page_change_toggle = 0x80)
    (hhr : s.data.heart_rate.isZero = false)
    (hreq : (Page70_unpage_to_dict info).requested_page = 0 ∨
      (Page70_unpage_to_dict info).requested_page = 2 ∨
      (Page70_unpage_to_dict info).requested_page = 3 ∨
      (Page70_unpage_to_dict info).requested_page = 6) :
    ∃ s2 ms,
      hrm_plus_handle now .AcknowledgedData 70 info s = (s2, .ok (.many ms)) ∧
      ms.length = (Page70_unpage_to_dict info).number_of_responses ∧
      ms.all (frame_is_data_of_page
        (if (Page70_unpage_to_dict info).response_with_acknowledged
          then Id.AcknowledgedData.value else Id.BroadcastData.value)
        (Page70_unpage_to_dict info).requested_page) = true := by
  have hmid : ∀ b : Bool,
      (if b then Id.AcknowledgedData else Id.BroadcastData).value =
        (if b then Id.AcknowledgedData.value else Id.BroadcastData.value) := by
    intro b; cases b <;> rfl
  obtain ⟨s3, ms, heq, hlen, hall⟩ :=
    hrm_page70_loop_spec now
      (if (Page70_unpage_to_dict info).response_with_acknowledged
        then Id.AcknowledgedData else Id.BroadcastData)
      (Page70_unpage_to_dict info).requested_page hreq
      (Page70_unpage_to_dict info).number_of_responses s htog hhr
  refine ⟨s3, ms, ?_, hlen, ?_⟩
  · unfold hrm_plus_handle
    rw [if_pos ⟨rfl, rfl⟩]
    simp only []
    rw [heq]
  · rw [← hmid]
    exact hall

/-- Witness for C6 (amended) at a concrete page-70 request for page 2 with
`transmission_response = 0x81`. -/
theorem C6_page70_reply_amended_witness :
    ∃ s2 ms,
      hrm_plus_handle (PyFloat.ofNat 7) .AcknowledgedData 70
        [1, 70, 0, 0, 0, 0, 0x81, 2, 1] hrm_slave_state = (s2, .ok (.many ms)) ∧
      ms.length = (Page70_unpage_to_dict [1, 70, 0, 0, 0, 0, 0x81, 2, 1]).number_of_responses ∧
      ms.all (frame_is_data_of_page
        (if (Page70_unpage_to_dict [1, 70, 0, 0, 0, 0, 0x81, 2, 1]).response_with_acknowledged
          then Id.AcknowledgedData.value else Id.BroadcastData.value)
        (Page70_unpage_to_dict [1, 70, 0, 0, 0, 0, 0x81, 2, 1]).requested_page) = true :=
  C6_page70_reply_amended (PyFloat.ofNat 7) [1, 70, 0, 0, 0, 0, 0x81, 2, 1]
    hrm_slave_state (by decide) (by decide) (by decide)

/-- C7 (counterexample): an unpaired HRM slave that receives an
`AcknowledgedData` page-70 request for an implemented page (page 2,
`transmission_response = 0x81`) on its own channel does not return a
`RequestMessage(ChannelID)` — it answers the request with one
`AcknowledgedData` page-2 frame — and its state is mutated. -/
theorem C7_pairing_gate_counterexample :
    (hrm_handle_received_message (PyFloat.ofNat 500) .AcknowledgedData 1 70
        [1, 70, 0, 0, 0, 0, 0x81, 2, 1] hrm_slave_state).2 ≠
      .ok (.one (RequestMessage 1 Id.ChannelID.value)) ∧
    result_is_n_frames_of_page
      ((hrm_handle_received_message (PyFloat.ofNat 500) .AcknowledgedData 1 70
        [1, 70, 0, 0, 0, 0, 0x81, 2, 1] hrm_slave_state).2)
      Id.AcknowledgedData.value 1 2 = true ∧
    (hrm_handle_received_message (PyFloat.ofNat 500) .AcknowledgedData 1 70
        [1, 70, 0, 0, 0, 0, 0x81, 2, 1] hrm_slave_state).1 ≠ hrm_slave_state := by
  exact ⟨by decide, by decide, by decide⟩

/-- C7 (amended): for a slave with `paired = false` receiving, on its own
channel, any `BroadcastData` frame, or any `AcknowledgedData` frame other
than a page-70 request, handling returns the single frame
`RequestMessage(channel, ChannelID)` and leaves the interface state —
including the `Data` record — unchanged.  (An `AcknowledgedData` page-70
request bypasses the pairing gate, as the counterexample shows.) -/
theorem C7_pairing_gate_amended (now : PyFloat) (message_id : Id)
    (page_number : Int) (info : List Nat) (s : HRMState)
    (hunpaired : s.paired = false)
    (hdata : message_id = .BroadcastData ∨ message_id = .AcknowledgedData)
    (hnot70 : ¬ (message_id = .AcknowledgedData ∧ page_number = 70)) :
    hrm_handle_received_message now message_id (s.channel : Int) page_number info s =
      (s, .ok (.one (RequestMessage s.channel Id.ChannelID.value))) := by
  unfold hrm_handle_received_message
  rw [if_neg (by simp)]
  unfold hrm_plus_handle
  rw [if_neg hnot70]
  rcases hdata with rfl | rfl <;> simp [hrm_base_handle, hunpaired]

/-- Witness for C7 (amended) at a concrete broadcast page-0 frame. -/
theorem C7_pairing_gate_amended_witness :
    hrm_handle_received_message (PyFloat.ofNat 9) .BroadcastData 1 0
        [1, 0, 255, 255, 255, 0, 0, 0, 99] hrm_slave_state =
      (hrm_slave_state, .ok (.one (RequestMessage 1 Id.ChannelID.value))) :=
  C7_pairing_gate_amended (PyFloat.ofNat 9) .BroadcastData 0
    [1, 0, 255, 255, 255, 0, 0, 0, 99] hrm_slave_state (by decide) (by decide)
    (by decide)

/-- A freshly initialised HRM master on an open channel 1 (as in scenario
S2): see `hrm_master_state`. C8 (counterexample): the frame emitted by
`broadcast_message()` at `interleave = 0` with `heart_rate = 100` has the
page-change toggle bit (bit 7 of the page-number byte) SET, not clear: the
toggle is XOR-flipped before composing whenever `interleave % 4 == 0`,
which includes tick 0. -/
theorem C8_hrm_tick_counterexample :
    ((hrm_broadcast_message (PyFloat.ofNat 1000) hrm_master_state).2).map
      (fun m => m.getD 4 0 &&& 0x80) = .ok 0x80 ∧ (0x80 : Nat) ≠ 0 := by
  exact ⟨by decide, by decide⟩

/-- C8 (amended): the S2 tick emits exactly the frame
`compose(BroadcastData, [1, 0x82, 1, 0x57, 0x17, 102, 2, 1, 100])`: id
`BroadcastData`, page number 2 in the low 7 bits, manufacturer 1 (garmin),
serial LSB `0x57` and MSB `0x17` (serial 5975) — but with the page-change
toggle bit set (page byte `0x82`), not clear. -/
theorem C8_hrm_tick_amended :
    (hrm_broadcast_message (PyFloat.ofNat 1000) hrm_master_state).2 =
      .ok (compose .BroadcastData [1, 0x82, 1, 0x57, 0x17, 102, 2, 1, 100]) ∧
    (decompose (compose .BroadcastData [1, 0x82, 1, 0x57, 0x17, 102, 2, 1, 100])).map
      (fun d => (d.messageID, d.page_number)) = .ok (some .BroadcastData, (0x82 : Int)) ∧
    0x82 &&& 0x7F = 2 ∧
    (1 : Nat) = Manufacturer_garmin ∧
    (0x57 : Nat) = SerialNumber_HRM &&& 0x00FF ∧
    (0x17 : Nat) = (SerialNumber_HRM &&& 0xFF00) >>> 8 ∧
    (0x82 : Nat) &&& 0x80 = 0x80 := by
  refine ⟨by decide, by decide, by decide, by decide, by decide, by decide, by decide⟩

/-! ## The dispatcher thread (`Dongle._handler_thread_function`,
dongle.py 376-414) -/

/-- Python list indexing (`channels[channel]` with an `int` index): negative
indices count from the right; out of range raises `IndexError` (`none`). -/
def pyResolveIndex (len : Nat) (i : Int) : Option Nat :=
  if 0 ≤ i then (if i.toNat < len then some i.toNat else none)
  else (if (-i).toNat ≤ len then some (len - (-i).toNat) else none)

/-- The dispatcher's mutable state: the byte deque, the `channels` table
(slots holding `AntHRM` interfaces in this instantiation), and the
session-wide `network_flag`. -/
structure DongleState where
  deque : List Nat
  channels : List (Option HRMState)
  network_flag : Bool
deriving DecidableEq, Repr

/-- The exceptions caught by the `except` clauses of the dispatcher loop
(dongle.py 403-414): `NoMessagesInDeque`, `UnknownMessageID` and
`InvalidMessageError`.  Everything else propagates; the `AttributeError`
clause is commented out in the source. -/
def handler_catches : PyExc → Bool
  | .noMessagesInDeque => true
  | .unknownMessageID => true
  | .invalidMessage => true
  | _ => false

/-- One iteration of the dispatcher loop body (dongle.py 378-402): read a
frame from the deque, decompose it, consume a channel-0 network-key
acknowledgement (`_channel_response_handler`), else route by the channel
byte to `channels[channel].handle_received_message`, collecting the frames
written back to USB.  Mutations made before an exception are kept. -/
def handler_iteration (now : PyFloat) (st : DongleState) :
    DongleState × Except PyExc (List (List Nat)) :=
  match read_message_from_deque st.deque with
  | (none, dq2) => ({ st with deque := dq2 }, .error .noMessagesInDeque)
  | (some msg, dq2) =>
    let st1 := { st with deque := dq2 }
    match decompose msg with
    | .error .indexError => (st1, .error .indexError)
    | .error .invalidId => (st1, .error .valueError)
    | .error .invalidMessage => (st1, .error .invalidMessage)
    | .ok d =>
      let netkey : Option (Except PyExc Unit) :=
        if d.channel = 0 ∧ d.messageID = some .ChannelResponse then
          match Id.fromValue? (d.info.getD 1 0) with
          | none => some (.error .valueError)
          | some rid =>
            if ¬ channel_response_code_valid (d.info.getD 2 0) then
              some (.error .valueError)
            else if d.info.getD 2 0 = 0 ∧ rid = .SetNetworkKey then
              some (.ok ())
            else none
        else none
      match netkey with
      | some (.error e) => (st1, .error e)
      | some (.ok ()) => ({ st1 with network_flag := true }, .ok [])
      | none =>
        match pyResolveIndex st1.channels.length d.channel with
        | none => (st1, .error .indexError)
        | some idx =>
          match st1.channels.getD idx none with
          | none => (st1, .error .attributeError)
          | some iface =>
            match d.messageID with
            | none => (st1, .error .valueError)
            | some mid =>
              match hrm_handle_received_message now mid d.channel d.page_number
                  d.info iface with
              | (s2, r) =>
                let st2 := { st1 with channels := st1.channels.set idx (some s2) }
                match r with
                | .error e => (st2, .error e)
                | .ok .noResponse => (st2, .ok [])
                | .ok (.one m) => (st2, .ok [m])
                | .ok (.many ms) => (st2, .ok ms)

/-- `Dongle._handler_thread_function`: the while-loop, with `fuel` bounding
the iterations (the `handler_thread_active` flag).  Returns the final
state, all frames written, and `some e` when an uncaught exception escaped
the loop and terminated the thread (`none`: the loop is still running /
was switched off). -/
def handler_thread_function (now : PyFloat) : Nat → DongleState →
    DongleState × List (List Nat) × Option PyExc
  | 0, st => (st, [], none)
  | fuel + 1, st =>
    match handler_iteration now st with
    | (st2, .ok ws) =>
      match handler_thread_function now fuel st2 with
      | (st3, ws2, e) => (st3, ws ++ ws2, e)
    | (st2, .error e) =>
      if handler_catches e then handler_thread_function now fuel st2
      else (st2, [], some e)

/-- A dispatcher state whose slot 0 holds an interface whose `channel`
attribute is 1, with a `BroadcastData` frame for channel 0 queued. -/
def c9_state : DongleState :=
  { deque := compose .BroadcastData [0, 0, 255, 255, 255, 0, 0, 0, 100],
    channels := [some hrm_slave_state],
    network_flag := false }

/-- C9 (counterexample): the dispatcher loop terminates with the
`WrongChannel` exception when a handled frame's channel byte differs from
the handling interface's channel attribute — `WrongChannel` is not among
the exceptions the loop catches. -/
theorem C9_handler_loop_counterexample :
    (handler_thread_function (PyFloat.ofNat 0) 5 c9_state).2.2 =
      some PyExc.wrongChannel ∧
    handler_catches .wrongChannel = false := by
  exact ⟨by decide, by decide⟩

/-- C9 (amended): the dispatcher loop catches exactly `NoMessagesInDeque`,
`UnknownMessageID` and `InvalidMessageError` and continues with the next
frame; any other exception — `WrongChannel` among them — escapes the loop
and terminates the thread, and those are the only ways the thread
terminates with an exception. -/
theorem C9_handler_loop_amended :
    handler_catches .noMessagesInDeque = true ∧
    handler_catches .unknownMessageID = true ∧
    handler_catches .invalidMessage = true ∧
    handler_catches .wrongChannel = false ∧
    (∀ now fuel st e, (handler_thread_function now fuel st).2.2 = some e →
      handler_catches e = false) := by
  refine ⟨rfl, rfl, rfl, rfl, ?_⟩
  intro now fuel
  induction fuel with
  | zero =>
    intro st e h
    simp [handler_thread_function] at h
  | succ fuel ih =>
    intro st e h
    unfold handler_thread_function at h
    rcases hit : handler_iteration now st with ⟨st2, r⟩
    rw [hit] at h
    cases r with
    | ok ws =>
      simp only [] at h
      rcases hrec : handler_thread_function now fuel st2 with ⟨st3, ws2, e2⟩
      rw [hrec] at h
      simp only [] at h
      apply ih st2 e
      rw [hrec]
      exact h
    | error e0 =>
      simp only [] at h
      by_cases hc : handler_catches e0
      · rw [if_pos hc] at h
        exact ih st2 e h
      · rw [if_neg hc] at h
        simp only [Option.some.injEq] at h
        rw [← h]
        exact Bool.not_eq_true _ ▸ (by simpa using hc)

/-- Witness for C9 (amended) at a concrete run that dies with `IndexError`
(empty channel table). -/
theorem C9_handler_loop_amended_witness :
    (handler_thread_function (PyFloat.ofNat 1) 3
        ⟨compose .BroadcastData [0, 0, 0, 0, 0, 0, 0, 0, 0], [], false⟩).2.2 =
      some PyExc.indexError ∧
    handler_catches PyExc.indexError = false :=
  ⟨by decide,
   C9_handler_loop_amended.2.2.2.2 (PyFloat.ofNat 1) 3
     ⟨compose .BroadcastData [0, 0, 0, 0, 0, 0, 0, 0, 0], [], false⟩
     PyExc.indexError (by decide)⟩

/-! ## Bushido brake broadcast-data handling
(`BushidoBrake._handle_broadcast_data`, tacx/bushido.py 40-58) -/

/-- Big-endian 16-bit read (`>H`). -/
def be16 (info : List Nat) (i : Nat) : Nat :=
  256 * info.getD i 0 + info.getD (i + 1) 0

/-- Big-endian 32-bit read (`>I`). -/
def be32 (info : List Nat) (i : Nat) : Nat :=
  256 * (256 * (256 * info.getD i 0 + info.getD (i + 1) 0) + info.getD (i + 2) 0) +
    info.getD (i + 3) 0

/-- The member values of `BushidoPage34.Status` (plus/page.py 1241-1256);
`Status(...)` raises `ValueError` outside this set. -/
def bushido_calibration_status_valid (n : Nat) : Bool :=
  n ∈ [0x00, 0x01, 0x02, 0x03, 0x04, 0x05, 0x06, 0x0A, 0x0B, 0x0C, 0x0D, 0x42, 0x4D]

/-- The dictionaries the per-page `unpage_to_dict` calls of
`BushidoBrake._handle_broadcast_data` produce (plus/page.py). -/
inductive BushidoPageDict where
  | slaveP1 (channel page_number target : Nat)
  | p1 (channel page_number data1 power data2 : Nat)
  | p2 (channel page_number speed cadence balance : Nat)
  | p4 (channel page_number : Nat) (data : List Nat)
  | p8 (channel page_number distance : Nat)
  | p16 (channel page_number alarm temperature : Nat)
  | p34 (channel page_number unknown status rolling_resistance : Nat)
  | p35 (channel page_number command : Nat)
deriving DecidableEq, Repr

/-- `BushidoBrake._handle_broadcast_data` (tacx/bushido.py 40-58): the
`if/elif` chain binds `page_dict` only for pages 1, 2, 4, 8, 34 and 35 —
the branch meant for page 16 tests `data_page_number == 8` a second time
(kept verbatim as the dead fifth branch) — and the final
`self.logger.info("Received %s", page_dict)` raises `UnboundLocalError`
whenever no branch matched. -/
def bushido_handle_broadcast_data (master : Bool) (data_page_number : Int)
    (info : List Nat) : Except PyExc BushidoPageDict :=
  match (if data_page_number = 1 then
      some (Except.ok (if master then
        BushidoPageDict.slaveP1 (info.getD 0 0) (info.getD 1 0) (be16 info 2)
      else
        BushidoPageDict.p1 (info.getD 0 0) (info.getD 1 0) (be16 info 2)
          (be16 info 4) (be16 info 6)))
    else if data_page_number = 2 then
      some (.ok (.p2 (info.getD 0 0) (info.getD 1 0) (be16 info 2)
        (info.getD 4 0) (info.getD 5 0)))
    else if data_page_number = 4 then
      some (.ok (.p4 (info.getD 0 0) (info.getD 1 0) ((info.drop 2).take 7)))
    else if data_page_number = 8 then
      some (.ok (.p8 (info.getD 0 0) (info.getD 1 0) (be32 info 2)))
    else if data_page_number = 8 then
      some (.ok (.p16 (info.getD 0 0) (info.getD 1 0) (be16 info 3)
        (info.getD 5 0)))
    else if data_page_number = 34 then
      (if bushido_calibration_status_valid (info.getD 4 0) then
        some (.ok (.p34 (info.getD 0 0) (info.getD 1 0) (be16 info 2)
          (info.getD 4 0) (be16 info 5)))
      else some (.error .valueError))
    else if data_page_number = 35 then
      some (.ok (.p35 (info.getD 0 0) (info.getD 1 0) (info.getD 2 0)))
    else none) with
  | some (.error e) => .error e
  | some (.ok d) => .ok d
  | none => .error .unboundLocal

theorem bushido_unbound_aux (master : Bool) (data_page_number : Int)
    (info : List Nat) (h1 : data_page_number ≠ 1) (h2 : data_page_number ≠ 2)
    (h4 : data_page_number ≠ 4) (h8 : data_page_number ≠ 8)
    (h34 : data_page_number ≠ 34) (h35 : data_page_number ≠ 35) :
    bushido_handle_broadcast_data master data_page_number info =
      .error .unboundLocal := by
  unfold bushido_handle_broadcast_data
  rw [if_neg h1, if_neg h2, if_neg h4, if_neg h8, if_neg h8, if_neg h34, if_neg h35]

/-- C10: for every broadcast data page delivered to a `BushidoBrake`
interface whose page number is not in {1, 2, 4, 8, 34, 35} — including page
16, the brake's own alarm page, because the branch intended for it tests
`data_page_number == 8` a second time — `_handle_broadcast_data` reaches
its logging statement with `page_dict` unbound and raises
`UnboundLocalError` (it neither logs the page nor raises
`UnknownDataPage`). -/
theorem C10_bushido_unbound_page_dict (master : Bool) (data_page_number : Int)
    (info : List Nat)
    (h : data_page_number ∉ ([1, 2, 4, 8, 34, 35] : List Int)) :
    bushido_handle_broadcast_data master data_page_number info =
      .error .unboundLocal ∧
    bushido_handle_broadcast_data master 16 info = .error .unboundLocal := by
  simp only [List.mem_cons, not_or] at h
  obtain ⟨h1, h2, h4, h8, h34, h35, -⟩ := h
  exact ⟨bushido_unbound_aux master data_page_number info h1 h2 h4 h8 h34 h35,
    bushido_unbound_aux master 16 info (by decide) (by decide) (by decide)
      (by decide) (by decide) (by decide)⟩

/-- Witness for C10 at page 16. -/
theorem C10_bushido_unbound_page_dict_witness :
    ((16 : Int) ∉ ([1, 2, 4, 8, 34, 35] : List Int)) ∧
    bushido_handle_broadcast_data true 16 [] = .error .unboundLocal :=
  ⟨by decide, (C10_bushido_unbound_page_dict true 16 [] (by decide)).1⟩

end AntSpec
